import Mathlib

/-
Verification development for the school-management API core
(src/app/core/models.py, src/app/core/serializers.py, src/app/core/views.py).

Dates are embedded as proleptic-Gregorian ordinal day numbers (integers), the
same representation Python's date arithmetic works over: comparing two dates
and subtracting them agree with comparing and subtracting their ordinals.
Database rows are embedded as lists of records; primary keys are Nat.
-/

namespace SchoolMgmt

/-- Record of the AcademicYear model (models.py 9-14): primary key, name,
start/end dates as ordinals, active flag. -/
structure AcademicYear where
  pk : Nat
  name : String
  start_date : Int
  end_date : Int
  is_active : Bool
  deriving DecidableEq, Repr

/-- models.py 16-17, AcademicYear.is_date_in_range:
date >= start_date and date <= end_date. -/
def is_date_in_range (y : AcademicYear) (d : Int) : Bool :=
  decide (d ≥ y.start_date) && decide (d ≤ y.end_date)

/-- models.py 26-30, AcademicYear.get_duration_in_days. The method guards
against an unset bound (Python None is the only falsy value of a date field),
so the bounds are embedded as Option: 0 when either is absent, otherwise
(end - start).days + 1. -/
def get_duration_in_days (start_date end_date : Option Int) : Int :=
  match start_date, end_date with
  | some s, some e => e - s + 1
  | _, _ => 0

/-- Leap-year test of the proleptic Gregorian calendar. -/
def isLeapYear (y : Nat) : Bool :=
  (y % 4 == 0 && y % 100 != 0) || y % 400 == 0

/-- Cumulative day count of the months preceding month m in year y. -/
def days_before_month (y m : Nat) : Nat :=
  [0, 31, 59, 90, 120, 151, 181, 212, 243, 273, 304, 334].getD (m - 1) 0 +
    (if 2 < m && isLeapYear y then 1 else 0)

/-- Ordinal day number of a calendar date, as in Python's date.toordinal
(0001-01-01 has ordinal 1). -/
def toOrdinal (y m d : Nat) : Int :=
  Int.ofNat ((y - 1) * 365 + (y - 1) / 4 - (y - 1) / 100 + (y - 1) / 400 +
    days_before_month y m + d)

/-- Outcome of the for_date endpoint (views.py 88-120). -/
inductive ForDateResult where
  | badRequestMissing
  | badRequestFormat
  | notFoundError
  | ok (years : List AcademicYear)
  deriving DecidableEq, Repr

/-- views.py 88-120, AcademicYearViewSet.for_date. The date parameter is
embedded as Option (Option Int): none = parameter absent (400), some none =
unparseable (400), some (some d) = the parsed date d. With a parsed date the
endpoint keeps every stored year whose range contains d and answers 404 when
none does. -/
def for_date (years : List AcademicYear) (param : Option (Option Int)) :
    ForDateResult :=
  match param with
  | none => .badRequestMissing
  | some none => .badRequestFormat
  | some (some d) =>
    let matching := years.filter (fun y => is_date_in_range y d)
    if matching.isEmpty then .notFoundError else .ok matching

/-- views.py 71-86, AcademicYearViewSet.activate: none models the 404 when the
pk does not resolve; otherwise every other year is bulk-deactivated and the
target is saved with is_active = true. -/
def activate (years : List AcademicYear) (pk : Nat) :
    Option (List AcademicYear) :=
  if pk ∈ years.map (fun y => y.pk) then
    some (years.map (fun y =>
      if y.pk = pk then { y with is_active := true }
      else { y with is_active := false }))
  else none

/-- serializers.py 19-26, AcademicYearSerializer.validate: rejects only when
both bounds occur in the submitted data and start_date > end_date. -/
def academic_year_validate (start_date end_date : Option Int) : Bool :=
  match start_date, end_date with
  | some s, some e => !(decide (s > e))
  | _, _ => true

/-- Outcome of a create or update request on academic years. -/
inductive WriteResult where
  | notFoundError
  | validationError
  | ok (years : List AcademicYear)
  deriving DecidableEq, Repr

/-- ModelViewSet create on academic years: both date bounds are required model
fields, so a create payload always carries both and the serializer check
applies; on success the new row is appended. -/
def create_academic_year (years : List AcademicYear) (pk : Nat) (nm : String)
    (s e : Int) (active : Bool) : WriteResult :=
  if academic_year_validate (some s) (some e) then
    .ok (years ++ [{ pk := pk, name := nm, start_date := s, end_date := e,
                     is_active := active }])
  else .validationError

/-- A PATCH payload for an academic year: each field is present (some) or
absent (none) from the submitted data. -/
structure AcademicYearPatch where
  name : Option String
  start_date : Option Int
  end_date : Option Int
  is_active : Option Bool
  deriving DecidableEq, Repr

/-- Field-wise merge of a PATCH payload onto a stored row. -/
def apply_patch (y : AcademicYear) (p : AcademicYearPatch) : AcademicYear :=
  { pk := y.pk
    name := p.name.getD y.name
    start_date := p.start_date.getD y.start_date
    end_date := p.end_date.getD y.end_date
    is_active := p.is_active.getD y.is_active }

/-- ModelViewSet PATCH on academic years: only the submitted fields reach the
serializer's validate, then the merged row replaces the stored one. -/
def patch_academic_year (years : List AcademicYear) (pk : Nat)
    (p : AcademicYearPatch) : WriteResult :=
  if pk ∈ years.map (fun y => y.pk) then
    if academic_year_validate p.start_date p.end_date then
      .ok (years.map (fun y => if y.pk = pk then apply_patch y p else y))
    else .validationError
  else .notFoundError

/-- The at-most-one-active invariant on the academic-year table. -/
def atMostOneActive (years : List AcademicYear) : Prop :=
  (years.filter (fun y => y.is_active)).length ≤ 1

/-- The course table restricted to what the prerequisite endpoints read: the
set of existing course ids and the prerequisite edge rows. An edge (c, p)
means p is a prerequisite of c (models.py 61-66, the prerequisites
many-to-many with reverse accessor required_for). -/
structure CourseState where
  courses : List Nat
  edges : List (Nat × Nat)
  deriving DecidableEq, Repr

/-- course.prerequisites.all() for course c: the targets of the edge rows
whose source is c. -/
def prereqsOf (edges : List (Nat × Nat)) (c : Nat) : List Nat :=
  (edges.filter (fun e => decide (e.1 = c))).map (fun e => e.2)

/-- Outcome of the add_prerequisite action (views.py 227-269). -/
inductive AddPrereqResult where
  | courseNotFound
  | missingParam
  | prereqNotFound
  | selfReference
  | circularDependency
  | added
  deriving DecidableEq, Repr

/-- views.py 227-269, CourseViewSet.add_prerequisite, with the state the
request leaves behind. Checks run in the source order: resolve the course
from the URL (404), require the prerequisite_id parameter (400), resolve it
(404), reject self-reference (400), reject when the course is a direct
prerequisite of the candidate (400), otherwise add the edge row (the
many-to-many add is a no-op when the row already exists). -/
def add_prerequisite (s : CourseState) (coursePk : Nat) (pid : Option Nat) :
    AddPrereqResult × CourseState :=
  if coursePk ∈ s.courses then
    match pid with
    | none => (.missingParam, s)
    | some p =>
      if p ∈ s.courses then
        if coursePk = p then (.selfReference, s)
        else if coursePk ∈ prereqsOf s.edges p then (.circularDependency, s)
        else
          let newEdges := if (coursePk, p) ∈ s.edges then s.edges
            else s.edges ++ [(coursePk, p)]
          (.added, { s with edges := newEdges })
      else (.prereqNotFound, s)
  else (.courseNotFound, s)

/-- Outcome of the remove_prerequisite action (views.py 271-306). -/
inductive RemovePrereqResult where
  | courseNotFound
  | missingParam
  | prereqNotFound
  | edgeNotFound
  | removed
  deriving DecidableEq, Repr

/-- views.py 271-306, CourseViewSet.remove_prerequisite: same resolution steps
as add_prerequisite, then 400 when the edge row is absent, otherwise the edge
row is deleted. -/
def remove_prerequisite (s : CourseState) (coursePk : Nat) (pid : Option Nat) :
    RemovePrereqResult × CourseState :=
  if coursePk ∈ s.courses then
    match pid with
    | none => (.missingParam, s)
    | some p =>
      if p ∈ s.courses then
        if p ∈ prereqsOf s.edges coursePk then
          (.removed, { s with edges := s.edges.filter (fun e => decide (e ≠ (coursePk, p))) })
        else (.edgeNotFound, s)
      else (.prereqNotFound, s)
  else (.courseNotFound, s)

/-- The loop of serializers.py 131-134 over the prerequisite list: rec is the
recursive call one fuel level down; the visited set is threaded through the
iterations because the Python set object is mutated in place and shared. -/
def ccr_loop (rec : Nat → List Nat → Option (Bool × List Nat)) :
    List Nat → List Nat → Option (Bool × List Nat)
  | [], visited => some (false, visited)
  | p :: ps, visited =>
    match rec p visited with
    | none => none
    | some (true, v) => some (true, v)
    | some (false, v) => ccr_loop rec ps v

/-- serializers.py 114-136,
CourseCreateUpdateSerializer._check_circular_reference, with an explicit
recursion-depth fuel (none = fuel exhausted). As in the source, the visited
set is keyed on the id of the fixed course argument, not of the prerequisite
being visited, and the result carries the final visited set. -/
def check_circular_reference (edges : List (Nat × Nat)) (course : Nat) :
    Nat → Nat → List Nat → Option (Bool × List Nat)
  | 0, _, _ => none
  | fuel + 1, pre, visited =>
    if course ∈ visited then some (false, visited)
    else
      let v := course :: visited
      if course ∈ prereqsOf edges pre then some (true, v)
      else ccr_loop (check_circular_reference edges course fuel)
        (prereqsOf edges pre) v

/-- The serializer's top-level call self._check_circular_reference(instance,
prereq) with a fresh visited set and ample fuel: true means a circular
reference was reported. -/
def checkCircular (edges : List (Nat × Nat)) (course pre : Nat) : Bool :=
  match check_circular_reference edges course (edges.length + 2) pre [] with
  | some (b, _) => b
  | none => true

/-- Outcome of CourseCreateUpdateSerializer.validate (serializers.py 91-112). -/
inductive CourseValidateResult where
  | selfReference
  | circular (conflicting : Nat)
  | valid
  deriving DecidableEq, Repr

/-- serializers.py 91-112, CourseCreateUpdateSerializer.validate for an update
whose data carries a prerequisites key: first the self-reference check, then
the first listed prerequisite flagged by the circular-reference helper is
reported. -/
def course_update_validate (edges : List (Nat × Nat)) (inst : Nat)
    (prereqs : List Nat) : CourseValidateResult :=
  if inst ∈ prereqs then .selfReference
  else
    match prereqs.find? (fun p => checkCircular edges inst p) with
    | some p => .circular p
    | none => .valid

/-- A nonempty directed path along prerequisite edge rows: PrereqPath edges a b
holds when a chain a → ... → b of requires-edges exists. -/
inductive PrereqPath (edges : List (Nat × Nat)) : Nat → Nat → Prop where
  | direct {a b : Nat} : (a, b) ∈ edges → PrereqPath edges a b
  | step {a b c : Nat} : (a, b) ∈ edges → PrereqPath edges b c → PrereqPath edges a c

/-- C7: get_duration_in_days is end_date - start_date + 1 when both bounds are
present (concretely 31 for 2024-01-01 to 2024-01-31) and 0 when either bound
is absent. -/
theorem c7_duration_in_days :
    (∀ s e : Int, get_duration_in_days (some s) (some e) = e - s + 1) ∧
    (∀ e, get_duration_in_days none e = 0) ∧
    (∀ s, get_duration_in_days s none = 0) ∧
    get_duration_in_days (some (toOrdinal 2024 1 1))
      (some (toOrdinal 2024 1 31)) = 31 := by
  refine ⟨fun s e => rfl, fun e => rfl, fun s => ?_, by decide⟩
  cases s <;> rfl

/-- C1: claimed, the prerequisite-addition check accepts C→P iff no directed
path P→...→C exists. Refuted on the code: on the acyclic graph with edges
B→A and C→B (here A=1, B=2, C=3), a path from candidate prerequisite C to
course A exists, yet the view action accepts the edge A→C and stores it, the
serializer helper reports no circular reference, and the stored graph then
has the cycle A→C→B→A. -/
theorem c1_cycle_check_accepts_cycle :
    add_prerequisite ⟨[1, 2, 3], [(2, 1), (3, 2)]⟩ 1 (some 3) =
      (AddPrereqResult.added, ⟨[1, 2, 3], [(2, 1), (3, 2), (1, 3)]⟩) ∧
    checkCircular [(2, 1), (3, 2)] 1 3 = false ∧
    PrereqPath [(2, 1), (3, 2)] 3 1 ∧
    PrereqPath [(2, 1), (3, 2), (1, 3)] 1 1 := by
  refine ⟨by decide, by decide, ?_, ?_⟩
  · exact @PrereqPath.step [(2, 1), (3, 2)] 3 2 1 (by decide)
      (PrereqPath.direct (by decide))
  · exact @PrereqPath.step [(2, 1), (3, 2), (1, 3)] 1 3 1 (by decide)
      (@PrereqPath.step [(2, 1), (3, 2), (1, 3)] 3 2 1 (by decide)
        (PrereqPath.direct (by decide)))

/-- C2: claimed, with B requiring A and C requiring B, adding A requires C
must fail with a cycle error naming A and C. Refuted on the code: the view
action answers added and persists the edge, the update serializer validates
the same request as valid, and the persisted graph afterwards contains the
cycle A→C→B→A (A=1, B=2, C=3). -/
theorem c2_concrete_cycle_scenario :
    (add_prerequisite ⟨[1, 2, 3], [(2, 1), (3, 2)]⟩ 1 (some 3)).1 =
      AddPrereqResult.added ∧
    course_update_validate [(2, 1), (3, 2)] 1 [3] = CourseValidateResult.valid ∧
    (add_prerequisite ⟨[1, 2, 3], [(2, 1), (3, 2)]⟩ 1 (some 3)).2.edges =
      [(2, 1), (3, 2), (1, 3)] ∧
    PrereqPath [(2, 1), (3, 2), (1, 3)] 1 1 := by
  refine ⟨by decide, by decide, by decide, ?_⟩
  exact @PrereqPath.step [(2, 1), (3, 2), (1, 3)] 1 3 1 (by decide)
    (@PrereqPath.step [(2, 1), (3, 2), (1, 3)] 3 2 1 (by decide)
      (PrereqPath.direct (by decide)))

/-- C5: asking to add a course as its own prerequisite always fails with the
self-reference error and leaves the state unchanged, in the view action as
well as in the update serializer. -/
theorem c5_self_reference (s : CourseState) (c : Nat) (hc : c ∈ s.courses)
    (edges : List (Nat × Nat)) (prereqs : List Nat) (hp : c ∈ prereqs) :
    add_prerequisite s c (some c) = (AddPrereqResult.selfReference, s) ∧
    course_update_validate edges c prereqs = CourseValidateResult.selfReference := by
  exact ⟨by simp [add_prerequisite, hc], by simp [course_update_validate, hp]⟩

/-- Witness for c5_self_reference at a one-course state. -/
theorem c5_self_reference_witness :
    add_prerequisite ⟨[7], []⟩ 7 (some 7) = (AddPrereqResult.selfReference, ⟨[7], []⟩) ∧
    course_update_validate [] 7 [7] = CourseValidateResult.selfReference :=
  c5_self_reference ⟨[7], []⟩ 7 (by decide) [] [7] (by decide)

/-- C9: removing a prerequisite edge that does not exist fails with the
edge-not-found error and changes nothing; removing an existing edge succeeds
and deletes exactly that edge row. -/
theorem c9_remove_prerequisite (s : CourseState) (c p : Nat)
    (hc : c ∈ s.courses) (hp : p ∈ s.courses) :
    (p ∉ prereqsOf s.edges c →
      remove_prerequisite s c (some p) = (RemovePrereqResult.edgeNotFound, s)) ∧
    (p ∈ prereqsOf s.edges c →
      ∃ s', remove_prerequisite s c (some p) = (RemovePrereqResult.removed, s') ∧
        s'.courses = s.courses ∧
        ∀ e : Nat × Nat, e ∈ s'.edges ↔ e ∈ s.edges ∧ e ≠ (c, p)) := by
  constructor
  · intro h
    simp [remove_prerequisite, hc, hp, h]
  · intro h
    refine ⟨{ s with edges := s.edges.filter (fun e => decide (e ≠ (c, p))) },
      ?_, rfl, ?_⟩
    · simp [remove_prerequisite, hc, hp, h]
    · intro e
      simp [List.mem_filter]

/-- Witness for c9_remove_prerequisite: removing the present edge (1, 2). -/
theorem c9_remove_prerequisite_witness :
    ∃ s', remove_prerequisite ⟨[1, 2], [(1, 2)]⟩ 1 (some 2) =
        (RemovePrereqResult.removed, s') ∧
      s'.courses = [1, 2] ∧
      ∀ e : Nat × Nat, e ∈ s'.edges ↔ e ∈ [(1, 2)] ∧ e ≠ (1, 2) :=
  (c9_remove_prerequisite ⟨[1, 2], [(1, 2)]⟩ 1 2 (by decide) (by decide)).2
    (by decide)

/-- C10: the add_prerequisite checks run in a fixed order: a request without a
prerequisite_id fails with the missing-parameter error, a prerequisite_id that
does not resolve fails with the not-found error before any semantic check,
and the self-reference outcome only arises for a resolved prerequisite id,
which then necessarily equals the course id. -/
theorem c10_check_order (s : CourseState) (c : Nat) (hc : c ∈ s.courses) :
    add_prerequisite s c none = (AddPrereqResult.missingParam, s) ∧
    (∀ p, p ∉ s.courses →
      add_prerequisite s c (some p) = (AddPrereqResult.prereqNotFound, s)) ∧
    (∀ pid r s', add_prerequisite s c pid = (r, s') →
      r = AddPrereqResult.selfReference →
      ∃ p, pid = some p ∧ p ∈ s.courses ∧ p = c) := by
  refine ⟨by simp [add_prerequisite, hc],
    fun p hp => by simp [add_prerequisite, hc, hp], ?_⟩
  intro pid r s' heq hr
  subst hr
  match pid with
  | none =>
    simp [add_prerequisite, hc] at heq
  | some p =>
    by_cases hp : p ∈ s.courses
    · by_cases hcp : c = p
      · exact ⟨p, rfl, hp, hcp.symm⟩
      · by_cases hd : c ∈ prereqsOf s.edges p
        · simp [add_prerequisite, hc, hp, hcp, hd] at heq
        · simp [add_prerequisite, hc, hp, hcp, hd] at heq
    · simp [add_prerequisite, hc, hp] at heq

/-- Witness for c10_check_order: a missing parameter and an unresolvable id
against a one-course state. -/
theorem c10_check_order_witness :
    add_prerequisite ⟨[1], []⟩ 1 none = (AddPrereqResult.missingParam, ⟨[1], []⟩) ∧
    add_prerequisite ⟨[1], []⟩ 1 (some 2) = (AddPrereqResult.prereqNotFound, ⟨[1], []⟩) :=
  ⟨(c10_check_order ⟨[1], []⟩ 1 (by decide)).1,
   (c10_check_order ⟨[1], []⟩ 1 (by decide)).2.1 2 (by decide)⟩

/-- C3 counterexample: claimed, a date outside every stored range yields an
empty sequence, not an error. Refuted: with one year covering ordinals 0..10
and the query date 20, the endpoint answers the 404 not-found response. -/
theorem c3_counterexample :
    for_date [⟨1, "Y", 0, 10, false⟩] (some (some 20)) =
      ForDateResult.notFoundError := by
  decide

/-- C3 amended: a year appears in a successful for_date answer exactly when
its inclusive range contains the date, and when no stored range contains the
date the endpoint answers the 404 not-found response instead of an empty
sequence. -/
theorem c3_for_date_amended (years : List AcademicYear) (d : Int)
    (Y : AcademicYear) :
    (∀ l, for_date years (some (some d)) = ForDateResult.ok l →
      (Y ∈ l ↔ Y ∈ years ∧ Y.start_date ≤ d ∧ d ≤ Y.end_date)) ∧
    ((∀ y ∈ years, ¬(y.start_date ≤ d ∧ d ≤ y.end_date)) →
      for_date years (some (some d)) = ForDateResult.notFoundError) := by
  constructor
  · intro l hl
    simp only [for_date] at hl
    split at hl
    · exact ForDateResult.noConfusion hl
    · injection hl with hl
      subst hl
      simp [List.mem_filter, is_date_in_range, ge_iff_le]
  · intro h
    have hnil : years.filter (fun y => is_date_in_range y d) = [] := by
      rw [List.filter_eq_nil_iff]
      intro y hy
      have := h y hy
      simp only [is_date_in_range, ge_iff_le]
      intro hc
      exact this (by simpa using hc)
    simp [for_date, hnil]

/-- Witness for c3_for_date_amended: date 50 lies outside the only stored
range 0..10, and the endpoint answers the 404 response. -/
theorem c3_for_date_amended_witness :
    for_date [⟨1, "Y1", 0, 10, false⟩] (some (some 50)) =
      ForDateResult.notFoundError :=
  (c3_for_date_amended [⟨1, "Y1", 0, 10, false⟩] 50 ⟨1, "Y1", 0, 10, false⟩).2
    (by decide)

/-- C8 counterexample: claimed, every academic year accepted by a create or
update satisfies start_date ≤ end_date. Refuted: a partial update that
submits only start_date = 30 against a stored year 10..20 passes validation
(the check fires only when both bounds are submitted) and leaves a stored
year whose end_date 20 is before its start_date 30. -/
theorem c8_counterexample :
    patch_academic_year [⟨1, "Y", 10, 20, false⟩] 1 ⟨none, some 30, none, none⟩ =
      WriteResult.ok [⟨1, "Y", 30, 20, false⟩] ∧
    (⟨1, "Y", 30, 20, false⟩ : AcademicYear).end_date <
      (⟨1, "Y", 30, 20, false⟩ : AcademicYear).start_date := by
  exact ⟨by decide, by decide⟩

/-- C8 amended: whenever both bounds are submitted (always the case for
create, where both fields are required) the serializer accepts exactly when
start_date ≤ end_date, so an accepted create only adds rows with
start_date ≤ end_date; but a payload missing a bound always validates, which
is how a partial update can bypass the check. -/
theorem c8_validate_amended (s e : Int) :
    (academic_year_validate (some s) (some e) = true ↔ s ≤ e) ∧
    (∀ years pk nm a l, create_academic_year years pk nm s e a = WriteResult.ok l →
      ∀ y ∈ l, y ∈ years ∨ y.start_date ≤ y.end_date) ∧
    (∀ st : Option Int, academic_year_validate st none = true) := by
  have hv : academic_year_validate (some s) (some e) = true ↔ s ≤ e := by
    simp [academic_year_validate, not_lt]
  refine ⟨hv, ?_, ?_⟩
  · intro years pk nm a l hl y hy
    by_cases h : academic_year_validate (some s) (some e) = true
    · rw [create_academic_year, if_pos h] at hl
      injection hl with hl
      subst hl
      rcases List.mem_append.mp hy with h1 | h1
      · exact Or.inl h1
      · right
        have hy' : y = ({ pk := pk, name := nm, start_date := s, end_date := e,
                          is_active := a } : AcademicYear) := by simpa using h1
        rw [hy']
        exact hv.mp h
    · rw [create_academic_year, if_neg h] at hl
      exact WriteResult.noConfusion hl
  · intro st
    cases st <;> rfl

/-- Witness for c8_validate_amended: bounds 5 ≤ 7 validate and the created
row keeps them ordered. -/
theorem c8_validate_amended_witness :
    academic_year_validate (some (5 : Int)) (some 7) = true ∧
    academic_year_validate (some (5 : Int)) none = true :=
  ⟨(c8_validate_amended 5 7).1.mpr (by decide),
   (c8_validate_amended 5 7).2.2 (some 5)⟩

/-- Rows whose pk differs from the activated one all come out inactive. -/
theorem activate_inactive_filter (pk : Nat) (ys : List AcademicYear)
    (h : pk ∉ ys.map (fun y => y.pk)) :
    (ys.map (fun y => if y.pk = pk then { y with is_active := true }
      else { y with is_active := false })).filter (fun y => y.is_active) = [] := by
  induction ys with
  | nil => rfl
  | cons y ys ih =>
    have h1 : ¬ y.pk = pk := by
      intro he
      exact h (by simp [he])
    have h2 : pk ∉ ys.map (fun y => y.pk) := by
      intro he
      exact h (by simp [he])
    simp [h1, ih h2]

/-- After the activate bulk write, the active rows are exactly one row
carrying the activated pk (given the pks are distinct and the target
exists). -/
theorem activate_filter_eq (pk : Nat) (ys : List AcademicYear)
    (hmem : pk ∈ ys.map (fun y => y.pk))
    (hnd : (ys.map (fun y => y.pk)).Nodup) :
    ((ys.map (fun y => if y.pk = pk then { y with is_active := true }
      else { y with is_active := false })).filter
        (fun y => y.is_active)).map (fun y => y.pk) = [pk] := by
  induction ys with
  | nil => simp at hmem
  | cons y ys ih =>
    simp only [List.map_cons, List.nodup_cons] at hnd
    obtain ⟨hny, hnd'⟩ := hnd
    by_cases hy : y.pk = pk
    · have h2 : pk ∉ ys.map (fun z => z.pk) := hy ▸ hny
      simp [hy, activate_inactive_filter pk ys h2]
    · have hm' : pk ∈ ys.map (fun z => z.pk) := by
        simp only [List.map_cons, List.mem_cons] at hmem
        rcases hmem with h1 | h1
        · exact absurd h1.symm hy
        · exact h1
      simp [hy, ih hm' hnd']

/-- C4 amended: activating an existing year (pks being distinct) leaves
exactly one active year, the activated one; but activate is not the only
operation touching the active flag, see c4_counterexample. -/
theorem c4_activate_amended (years : List AcademicYear) (pk : Nat)
    (hmem : pk ∈ years.map (fun y => y.pk))
    (hnd : (years.map (fun y => y.pk)).Nodup) :
    ∃ l, activate years pk = some l ∧
      (l.filter (fun y => y.is_active)).map (fun y => y.pk) = [pk] := by
  refine ⟨_, ?_, activate_filter_eq pk years hmem hnd⟩
  simp [activate, hmem]

/-- Witness for c4_activate_amended: activating year 2 of two stored years. -/
theorem c4_activate_amended_witness :
    ∃ l, activate [⟨1, "A", 0, 10, true⟩, ⟨2, "B", 20, 30, false⟩] 2 = some l ∧
      (l.filter (fun y => y.is_active)).map (fun y => y.pk) = [2] :=
  c4_activate_amended [⟨1, "A", 0, 10, true⟩, ⟨2, "B", 20, 30, false⟩] 2
    (by decide) (by decide)

/-- C4 counterexample: claimed, activate is the only operation that changes
which year is active, so every operation preserves the at-most-one-active
invariant. Refuted: the create endpoint accepts is_active in its payload with
no single-active validation, so creating a second active year turns a table
satisfying the invariant into one with two active rows. -/
theorem c4_counterexample :
    atMostOneActive [⟨1, "A", 0, 10, true⟩] ∧
    create_academic_year [⟨1, "A", 0, 10, true⟩] 2 "B" 20 30 true =
      WriteResult.ok [⟨1, "A", 0, 10, true⟩, ⟨2, "B", 20, 30, true⟩] ∧
    1 < ([(⟨1, "A", 0, 10, true⟩ : AcademicYear),
          ⟨2, "B", 20, 30, true⟩].filter (fun y => y.is_active)).length := by
  exact ⟨by unfold atMostOneActive; decide, by decide, by decide⟩

/-- One recursion level returns immediately when the fixed course id is
already in the visited set (serializers.py 121-122). -/
theorem ccr_mem_visited (edges : List (Nat × Nat)) (course pre : Nat)
    (visited : List Nat) (f : Nat) (h : course ∈ visited) :
    check_circular_reference edges course (f + 1) pre visited =
      some (false, visited) := by
  simp [check_circular_reference, h]

/-- The loop over the prerequisite list goes nowhere once the fixed course id
sits in the visited set: every recursive call returns false at once. -/
theorem ccr_loop_mem_visited (edges : List (Nat × Nat)) (course : Nat) (f : Nat)
    (hf : 1 ≤ f) (ps visited : List Nat) (h : course ∈ visited) :
    ccr_loop (check_circular_reference edges course f) ps visited =
      some (false, visited) := by
  induction ps with
  | nil => rfl
  | cons p ps ih =>
    obtain ⟨g, rfl⟩ : ∃ g, f = g + 1 := ⟨f - 1, by omega⟩
    simp only [ccr_loop, ccr_mem_visited edges course p visited g h]
    exact ih

/-- One recursion level reports true when the fixed course is a direct
prerequisite of the visited node (serializers.py 128-129). -/
theorem ccr_direct_hit (edges : List (Nat × Nat)) (course pre : Nat)
    (visited : List Nat) (g : Nat) (h : ¬ course ∈ visited)
    (h2 : course ∈ prereqsOf edges pre) :
    check_circular_reference edges course (g + 1) pre visited =
      some (true, course :: visited) := by
  simp [check_circular_reference, h, h2]

/-- With no immediate answer the search stops after one level: the course id
was just added to the visited set, so the whole loop returns false. -/
theorem ccr_succ_succ (edges : List (Nat × Nat)) (course pre : Nat)
    (visited : List Nat) (g : Nat) (h : ¬ course ∈ visited)
    (h2 : ¬ course ∈ prereqsOf edges pre) :
    check_circular_reference edges course (g + 1 + 1) pre visited =
      some (false, course :: visited) := by
  have hu : check_circular_reference edges course (g + 1 + 1) pre visited =
      ccr_loop (check_circular_reference edges course (g + 1))
        (prereqsOf edges pre) (course :: visited) := by
    simp [check_circular_reference, h, h2]
  rw [hu, ccr_loop_mem_visited edges course (g + 1) (by omega) _ _
    (List.mem_cons_self _ _)]

/-- C6: the circular-reference search terminates on every input graph,
cyclic ones included: fuel 2 already suffices for any graph, course,
candidate and visited set, so the recursion never exhausts any fuel of at
least 2 and its answer does not depend on the fuel. -/
theorem c6_termination (edges : List (Nat × Nat)) (course pre : Nat)
    (visited : List Nat) (fuel : Nat) (hf : 2 ≤ fuel) :
    (check_circular_reference edges course fuel pre visited).isSome = true ∧
    check_circular_reference edges course fuel pre visited =
      check_circular_reference edges course 2 pre visited := by
  obtain ⟨f, rfl⟩ : ∃ f, fuel = f + 1 + 1 := ⟨fuel - 2, by omega⟩
  have two_eq : (2 : Nat) = 0 + 1 + 1 := rfl
  by_cases h : course ∈ visited
  · rw [ccr_mem_visited edges course pre visited (f + 1) h, two_eq,
        ccr_mem_visited edges course pre visited (0 + 1) h]
    exact ⟨rfl, rfl⟩
  · by_cases h2 : course ∈ prereqsOf edges pre
    · rw [ccr_direct_hit edges course pre visited (f + 1) h h2, two_eq,
          ccr_direct_hit edges course pre visited (0 + 1) h h2]
      exact ⟨rfl, rfl⟩
    · rw [ccr_succ_succ edges course pre visited f h h2, two_eq,
          ccr_succ_succ edges course pre visited 0 h h2]
      exact ⟨rfl, rfl⟩

/-- Witness for c6_termination on a graph that is already cyclic (1 and 2
require each other), with fuel 5. -/
theorem c6_termination_witness :
    (check_circular_reference [(1, 2), (2, 1)] 1 5 2 []).isSome = true ∧
    check_circular_reference [(1, 2), (2, 1)] 1 5 2 [] =
      check_circular_reference [(1, 2), (2, 1)] 1 2 2 [] :=
  c6_termination [(1, 2), (2, 1)] 1 2 [] 5 (by decide)

end SchoolMgmt
